import Mathlib

/-!
Shallow embedding of `src/user.rs` of the reddsaver repository: the
cursor-paginated retrieval loop `User::saved`, and the single-shot
operations `User::about` and `User::unsave`.

The server is modelled as a finite script of transport outcomes, consumed
one outcome per issued request, in order.  Each outcome is either a
transport-layer failure of `send()` or a delivered HTTP response carrying a
status code and a body; the body either deserializes as the page type
(`.json::<UserSaved>()` succeeds) or fails to decode.  Note that the HTTP
client used by the code returns `Ok` from `send()` for every delivered
response regardless of its status code, and `user.rs` never inspects a
status, so statuses are carried in the model but never branched on by the
embedded code.
-/

namespace ReddSaver

/-- Modelled from the spec: the inner `data` object of the page envelope
returned by the listing endpoint — `data.dist` (integer item count),
`data.after` (optional opaque cursor), `data.children` (ordered list of
items, opaque to the core).  The Rust struct lives in `structures.rs`,
which is not under `src/`; the field shape is given by spec sections 3
and 6. -/
structure SavedData where
  dist : Nat
  after : Option String
  children : List String
deriving DecidableEq, Repr

/-- Modelled from the spec: the page envelope decoded from one listing
response (`UserSaved` in `structures.rs`, not under `src/`): a JSON object
whose `data` member holds the page payload. -/
structure UserSaved where
  data : SavedData
deriving DecidableEq, Repr

/-- Modelled from the spec: the error kinds of spec section 7
(`ReddSaverError` lives in `errors.rs`, not under `src/`): a transport
failure of the HTTP layer, or a response body that does not decode as the
expected schema. -/
inductive ReddSaverError where
  | transportError
  | decodeError
deriving DecidableEq, Repr

/-- Modelled from the spec: authentication information holding the bearer
token borrowed by every request (`Auth` lives in `auth.rs`, not under
`src/`). -/
structure Auth where
  access_token : String
deriving DecidableEq, Repr

/-- Modelled from the spec: the User-Agent header content supplied by the
transport collaborator (`get_user_agent_string` lives in `utils.rs`, not
under `src/`); its value is opaque to the fetcher, which only forwards
it. -/
def get_user_agent_string : String := "reddsaver:unique-app-user-agent"

/-- Struct `User` (`user.rs:11-16`): the authenticated identity (bearer token)
and the account name whose saved items are fetched. -/
structure User where
  auth : Auth
  name : String
deriving DecidableEq, Repr

/-- Result of deserializing one response body as the page type: either the
body decodes to a page (`.json::<UserSaved>()` succeeds) or it fails to
decode (the `?` on `.json()` propagates a decode error). -/
inductive ResponseBody where
  | page (p : UserSaved)
  | undecodable
deriving DecidableEq, Repr

/-- One scripted transport outcome for one HTTP request: either `send()`
itself fails at the transport layer (network failure, timeout), or an HTTP
response is delivered with a status code and a body.  A delivered response
is `Ok` from `send()` whatever its status code; `user.rs` contains no
status check. -/
inductive TransportOutcome where
  | fail
  | response (status : Nat) (body : ResponseBody)
deriving DecidableEq, Repr

/-- The observable content of one GET request issued by `User::saved`: the
URL built at `user.rs:54-62`, the `limit` query pair attached by `.query`
at line 69, the bearer token of line 66 and the User-Agent header of
line 67.  `cursor` records the `after` value interpolated into the URL
(`none` when the first `format!` branch was taken). -/
structure Request where
  url : String
  cursor : Option String
  query : List (String × Nat)
  bearer : String
  userAgent : String
deriving DecidableEq, Repr

/-- The URL built by the two `format!` branches at `user.rs:54-62`. -/
def savedUrl (name : String) (cursor : Option String) : String :=
  match cursor with
  | none => "https://oauth.reddit.com/user/" ++ name ++ "/saved"
  | some a => "https://oauth.reddit.com/user/" ++ name ++ "/saved?after=" ++ a

/-- One listing request as issued at `user.rs:64-70`. -/
def savedRequest (name token : String) (cursor : Option String) : Request :=
  { url := savedUrl name cursor
    cursor := cursor
    query := [("limit", 100)]
    bearer := token
    userAgent := get_user_agent_string }

/-- The cursor used when building the URL at `user.rs:54-62`: when
`processed == 0` the first branch omits the cursor; otherwise the second
branch unwraps `after`.  The outer `none` models the `unwrap` at line 60
panicking on a `None` cursor. -/
def cursorParam (processed : Nat) (after : Option String) : Option (Option String) :=
  if processed == 0 then
    some none
  else
    match after with
    | some a => some (some a)
    | none => none

/-- Outcome of one call to `User::saved`: normal return of the accumulated
pages, an error propagated by `?`, a panic of the `unwrap` at line 60, or
the model artifact of the server script running out while the loop still
wants a page. -/
inductive FetchResult where
  | ok (pages : List UserSaved)
  | err (e : ReddSaverError)
  | panicked
  | outOfResponses
deriving DecidableEq, Repr

/-- Returns `true` exactly on the `panicked` outcome. -/
def FetchResult.isPanicked : FetchResult → Bool
  | .panicked => true
  | _ => false

/-- Observable trace of one call to `User::saved`: the requests issued in
order, the running `processed` values logged by the `info!` at
`user.rs:79` (one entry per decoded page, cumulative), and the outcome. -/
structure RunResult where
  requests : List Request
  counts : List Nat
  result : FetchResult
deriving DecidableEq, Repr

/-- The `while !complete` loop of `User::saved` (`user.rs:50-94`), one
iteration per scripted outcome.  Each iteration: build the URL from
`processed` and `after` (lines 54-62; a `None` unwrap panics), issue the
request (lines 64-73; a transport failure or an undecodable body is
propagated by `?` and ends the call), add the page's `dist` to `processed`
(line 78), then either finish with the page appended when its `after` is
absent, or store the cursor and continue (lines 82-93). -/
def savedLoop (name token : String) (processed : Nat) (after : Option String)
    (acc : List UserSaved) (script : List TransportOutcome) : RunResult :=
  match cursorParam processed after with
  | none => { requests := [], counts := [], result := .panicked }
  | some cur =>
    let req := savedRequest name token cur
    match script with
    | [] => { requests := [req], counts := [], result := .outOfResponses }
    | o :: rest =>
      match o with
      | .fail => { requests := [req], counts := [], result := .err .transportError }
      | .response _ body =>
        match body with
        | .undecodable => { requests := [req], counts := [], result := .err .decodeError }
        | .page p =>
          match p.data.after with
          | none =>
            { requests := [req]
              counts := [processed + p.data.dist]
              result := .ok (acc ++ [p]) }
          | some a =>
            let r := savedLoop name token (processed + p.data.dist) (some a)
              (acc ++ [p]) rest
            { requests := req :: r.requests
              counts := (processed + p.data.dist) :: r.counts
              result := r.result }

/-- Method `User::saved` (`user.rs:43-97`): the loop started from the initial
state of lines 46-49 (`processed = 0`, `after = None`, `saved = []`). -/
def User.saved (u : User) (script : List TransportOutcome) : RunResult :=
  savedLoop u.name u.auth.access_token 0 none [] script

/-- The URL of the profile endpoint (`user.rs:25`). -/
def aboutUrl (name : String) : String :=
  "https://oauth.reddit.com/user/" ++ name ++ "/about"

/-- The URL of the unsave endpoint (`user.rs:100`). -/
def unsaveUrl : String := "https://oauth.reddit.com/api/unsave"

/-- The observable content of the one POST issued by `User::unsave`
(`user.rs:106-112`): URL, form-encoded body, bearer token, User-Agent
header. -/
structure PostRequest where
  url : String
  form : List (String × String)
  bearer : String
  userAgent : String
deriving DecidableEq, Repr

/-- Method `User::unsave` (`user.rs:99-117`): one POST to the unsave endpoint
with the single form field `id` (lines 102-110).  The `?` on `send()`
propagates a transport failure; otherwise the response is only logged and
`Ok(())` is returned — neither the status code nor the body is read. -/
def User.unsave (u : User) (name : String) (outcome : TransportOutcome) :
    PostRequest × Except ReddSaverError Unit :=
  let req : PostRequest :=
    { url := unsaveUrl
      form := [("id", name)]
      bearer := u.auth.access_token
      userAgent := get_user_agent_string }
  match outcome with
  | .fail => (req, .error .transportError)
  | .response _ _ => (req, .ok ())

/-- A scripted outcome delivering a decodable page with a 200 status. -/
def pageOutcome (p : UserSaved) : TransportOutcome :=
  .response 200 (.page p)

/-- Sum of the `dist` fields of a list of pages. -/
def sumDist (ps : List UserSaved) : Nat :=
  (ps.map (fun p => p.data.dist)).sum

/-- Success statuses in the sense of the spec's error taxonomy
(section 7): the 2xx range; every other status is an "error status". -/
def is2xx (s : Nat) : Bool :=
  decide (200 ≤ s ∧ s < 300)

/-- Replace every delivered status code by `f` of it, leaving transport
failures and bodies untouched. -/
def setStatus (f : Nat → Nat) : TransportOutcome → TransportOutcome
  | .fail => .fail
  | .response s b => .response (f s) b

/-- The cumulative `processed` values produced by adding the `dist` of
each page in turn, starting from `processed`. -/
def runningTotals (processed : Nat) : List UserSaved → List Nat
  | [] => []
  | p :: rest => (processed + p.data.dist) :: runningTotals (processed + p.data.dist) rest

theorem cursorParam_eq_some (processed : Nat) (after : Option String)
    (h : processed = 0 ∨ after.isSome) :
    ∃ cur, cursorParam processed after = some cur := by
  rcases h with h | h
  · exact ⟨none, by simp [cursorParam, h]⟩
  · rcases after with _ | a
    · simp at h
    · by_cases hp : processed = 0
      · exact ⟨none, by simp [cursorParam, hp]⟩
      · exact ⟨some a, by simp [cursorParam, hp]⟩

theorem savedLoop_nil (name token : String) (processed : Nat) (after : Option String)
    (acc : List UserSaved) (cur : Option String)
    (hcur : cursorParam processed after = some cur) :
    savedLoop name token processed after acc []
      = { requests := [savedRequest name token cur], counts := [],
          result := .outOfResponses } := by
  rw [savedLoop.eq_def, hcur]

theorem savedLoop_panic (name token : String) (processed : Nat)
    (after : Option String) (acc : List UserSaved) (script : List TransportOutcome)
    (hcur : cursorParam processed after = none) :
    savedLoop name token processed after acc script
      = { requests := [], counts := [], result := .panicked } := by
  rw [savedLoop.eq_def, hcur]

theorem savedLoop_fail (name token : String) (processed : Nat) (after : Option String)
    (acc : List UserSaved) (cur : Option String) (rest : List TransportOutcome)
    (hcur : cursorParam processed after = some cur) :
    savedLoop name token processed after acc (.fail :: rest)
      = { requests := [savedRequest name token cur], counts := [],
          result := .err .transportError } := by
  rw [savedLoop.eq_def, hcur]

theorem savedLoop_undecodable (name token : String) (processed : Nat)
    (after : Option String) (acc : List UserSaved) (cur : Option String)
    (s : Nat) (rest : List TransportOutcome)
    (hcur : cursorParam processed after = some cur) :
    savedLoop name token processed after acc (.response s .undecodable :: rest)
      = { requests := [savedRequest name token cur], counts := [],
          result := .err .decodeError } := by
  rw [savedLoop.eq_def, hcur]

theorem savedLoop_lastPage (name token : String) (processed : Nat)
    (after : Option String) (acc : List UserSaved) (cur : Option String)
    (s : Nat) (p : UserSaved) (rest : List TransportOutcome)
    (hcur : cursorParam processed after = some cur) (hp : p.data.after = none) :
    savedLoop name token processed after acc (.response s (.page p) :: rest)
      = { requests := [savedRequest name token cur],
          counts := [processed + p.data.dist],
          result := .ok (acc ++ [p]) } := by
  rw [savedLoop.eq_def, hcur]
  simp only [hp]

theorem savedLoop_midPage (name token : String) (processed : Nat)
    (after : Option String) (acc : List UserSaved) (cur : Option String)
    (s : Nat) (p : UserSaved) (a : String) (rest : List TransportOutcome)
    (hcur : cursorParam processed after = some cur) (hp : p.data.after = some a) :
    savedLoop name token processed after acc (.response s (.page p) :: rest)
      = { requests := savedRequest name token cur ::
            (savedLoop name token (processed + p.data.dist) (some a) (acc ++ [p]) rest).requests
          counts := (processed + p.data.dist) ::
            (savedLoop name token (processed + p.data.dist) (some a) (acc ++ [p]) rest).counts
          result :=
            (savedLoop name token (processed + p.data.dist) (some a) (acc ++ [p]) rest).result } := by
  rw [savedLoop.eq_def, hcur]
  simp only [hp]

theorem savedLoop_not_panicked (name token : String) :
    ∀ (script : List TransportOutcome) (processed : Nat) (after : Option String)
      (acc : List UserSaved), (processed = 0 ∨ after.isSome) →
      ((savedLoop name token processed after acc script).result).isPanicked = false := by
  intro script
  induction script with
  | nil =>
    intro processed after acc h
    obtain ⟨cur, hcur⟩ := cursorParam_eq_some processed after h
    rw [savedLoop_nil _ _ _ _ _ _ hcur]
    rfl
  | cons o rest ih =>
    intro processed after acc h
    obtain ⟨cur, hcur⟩ := cursorParam_eq_some processed after h
    cases o with
    | fail => rw [savedLoop_fail _ _ _ _ _ _ _ hcur]; rfl
    | response s body =>
      cases body with
      | undecodable => rw [savedLoop_undecodable _ _ _ _ _ _ _ _ hcur]; rfl
      | page p =>
        cases hp : p.data.after with
        | none => rw [savedLoop_lastPage _ _ _ _ _ _ _ _ _ hcur hp]; rfl
        | some a =>
          rw [savedLoop_midPage _ _ _ _ _ _ _ _ _ _ hcur hp]
          exact ih (processed + p.data.dist) (some a) (acc ++ [p]) (Or.inr rfl)

/-- C10: the `unwrap` at `user.rs:60` never panics: on no server script
does `User::saved` reach the cursor-bearing URL branch with an absent
cursor, because that branch requires a non-zero processed count, which is
only reachable after an earlier iteration decoded a page and continued,
storing that page's present cursor. -/
theorem saved_unwrap_never_panics (u : User) (script : List TransportOutcome) :
    ((u.saved script).result).isPanicked = false :=
  savedLoop_not_panicked u.name u.auth.access_token script 0 none [] (Or.inl rfl)

/-- First page of the C1 failing input: zero items but a present cursor. -/
def zeroDistPage : UserSaved := ⟨⟨0, some "t1", []⟩⟩

/-- Second page of the C1 failing input: terminal page with three items. -/
def threeDistPage : UserSaved := ⟨⟨3, none, []⟩⟩

/-- C1: refuted on the code — when the first page carries `dist = 0` and
the present cursor `t1`, the processed count is still `0` at the second
iteration, so the `processed == 0` test at `user.rs:54` takes the
cursor-free branch again: request 2 omits the `after` parameter (its
cursor below is `none`, not `some "t1"`) even though page 1 returned the
cursor `t1`, contradicting the claim and the comment at `user.rs:51-53`. -/
theorem saved_cursor_not_forwarded_on_zero_dist :
    ((User.mk ⟨"tok"⟩ "u").saved
        [pageOutcome zeroDistPage, pageOutcome threeDistPage]).requests.map Request.cursor
      = [none, none]
    ∧ zeroDistPage.data.after = some "t1" :=
  ⟨rfl, rfl⟩

/-- A 100-item page pointing at cursor `t1`. -/
def bigFirstPage : UserSaved := ⟨⟨100, some "t1", []⟩⟩

/-- A terminal 5-item page. -/
def smallLastPage : UserSaved := ⟨⟨5, none, []⟩⟩

/-- C4: refuted on the code — `user.rs` never checks the HTTP status (the
client's `send()` succeeds for any delivered response and nothing like
`error_for_status` is called), so a response delivered with status 500
whose body decodes as a page is appended to the result like any other:
the run below succeeds and the error-status response contributed a page. -/
theorem saved_500_contributes_page :
    ((User.mk ⟨"tok"⟩ "u").saved
        [.response 200 (.page bigFirstPage), .response 500 (.page smallLastPage)]).result
      = .ok [bigFirstPage, smallLastPage]
    ∧ is2xx 500 = false :=
  ⟨rfl, by decide⟩

theorem savedLoop_status_irrelevant (name token : String) (f : Nat → Nat) :
    ∀ (script : List TransportOutcome) (processed : Nat) (after : Option String)
      (acc : List UserSaved),
      savedLoop name token processed after acc (script.map (setStatus f))
        = savedLoop name token processed after acc script := by
  intro script
  induction script with
  | nil => intro processed after acc; rfl
  | cons o rest ih =>
    intro processed after acc
    simp only [List.map_cons]
    cases hcur : cursorParam processed after with
    | none =>
      rw [savedLoop_panic _ _ _ _ _ _ hcur, savedLoop_panic _ _ _ _ _ _ hcur]
    | some cur =>
      cases o with
      | fail =>
        simp only [setStatus]
        rw [savedLoop_fail _ _ _ _ _ _ _ hcur, savedLoop_fail _ _ _ _ _ _ _ hcur]
      | response s body =>
        cases body with
        | undecodable =>
          simp only [setStatus]
          rw [savedLoop_undecodable _ _ _ _ _ _ _ _ hcur,
            savedLoop_undecodable _ _ _ _ _ _ _ _ hcur]
        | page p =>
          cases hp : p.data.after with
          | none =>
            simp only [setStatus]
            rw [savedLoop_lastPage _ _ _ _ _ _ _ _ _ hcur hp,
              savedLoop_lastPage _ _ _ _ _ _ _ _ _ hcur hp]
          | some a =>
            simp only [setStatus]
            rw [savedLoop_midPage _ _ _ _ _ _ _ _ _ _ hcur hp,
              savedLoop_midPage _ _ _ _ _ _ _ _ _ _ hcur hp,
              ih (processed + p.data.dist) (some a) (acc ++ [p])]

/-- C4 amended: the HTTP status of a delivered response is never
inspected by `User::saved`: the whole observable run (requests, logged
counts, outcome) is invariant under arbitrary rewriting of status codes,
so a non-2xx status is not surfaced as any error; a page request fails
only on a transport failure or an undecodable body. -/
theorem saved_status_irrelevant (u : User) (f : Nat → Nat)
    (script : List TransportOutcome) :
    u.saved (script.map (setStatus f)) = u.saved script :=
  savedLoop_status_irrelevant u.name u.auth.access_token f script 0 none []

/-- C8: refuted as stated under the spec's own error taxonomy (a non-2xx
status is an "error" HTTP response): a delivered status-500 response still
makes `User::unsave` return `Ok`, because the `?` only covers the
transport-level `send()` and the status is never read. -/
theorem unsave_ok_on_error_status :
    ((User.mk ⟨"tok"⟩ "u").unsave "t3_abc" (.response 500 .undecodable)).2 = .ok ()
    ∧ is2xx 500 = false :=
  ⟨rfl, by decide⟩

/-- C8 amended: `User::unsave` issues exactly one POST to the unsave
endpoint with the single form field `id` set to the item identifier, and
returns `Ok` exactly when the transport delivered any HTTP response —
regardless of its status code — and a transport error exactly when
`send()` failed; neither the status nor the response body is read. -/
theorem unsave_one_post_transport_only (u : User) (nm : String) :
    (∀ o : TransportOutcome,
        (u.unsave nm o).1
          = { url := unsaveUrl
              form := [("id", nm)]
              bearer := u.auth.access_token
              userAgent := get_user_agent_string })
    ∧ (u.unsave nm .fail).2 = .error .transportError
    ∧ (∀ (s : Nat) (b : ResponseBody), (u.unsave nm (.response s b)).2 = .ok ()) := by
  refine ⟨fun o => ?_, rfl, fun s b => rfl⟩
  cases o <;> rfl

theorem savedLoop_all_pages (name token : String) :
    ∀ (init : List UserSaved) (lastp : UserSaved) (processed : Nat)
      (after : Option String) (acc : List UserSaved),
      (∀ p ∈ init, (p.data.after).isSome) → lastp.data.after = none →
      (processed = 0 ∨ after.isSome) →
      (savedLoop name token processed after acc
          ((init ++ [lastp]).map pageOutcome)).result = .ok (acc ++ init ++ [lastp])
      ∧ (savedLoop name token processed after acc
          ((init ++ [lastp]).map pageOutcome)).requests.length = init.length + 1
      ∧ (savedLoop name token processed after acc
          ((init ++ [lastp]).map pageOutcome)).counts
          = runningTotals processed (init ++ [lastp]) := by
  intro init
  induction init with
  | nil =>
    intro lastp processed after acc h1 h2 hinv
    obtain ⟨cur, hcur⟩ := cursorParam_eq_some processed after hinv
    simp only [List.nil_append, List.map_cons, List.map_nil, pageOutcome]
    rw [savedLoop_lastPage _ _ _ _ _ _ _ _ _ hcur h2]
    simp [runningTotals]
  | cons p init ih =>
    intro lastp processed after acc h1 h2 hinv
    obtain ⟨cur, hcur⟩ := cursorParam_eq_some processed after hinv
    obtain ⟨a, ha⟩ := Option.isSome_iff_exists.mp (h1 p (List.mem_cons_self p init))
    have ih' := ih lastp (processed + p.data.dist) (some a) (acc ++ [p])
      (fun q hq => h1 q (List.mem_cons_of_mem p hq)) h2 (Or.inr rfl)
    simp only [List.cons_append, List.map_cons, pageOutcome]
    rw [savedLoop_midPage _ _ _ _ _ _ _ _ _ _ hcur ha]
    refine ⟨?_, ?_, ?_⟩
    · simp only [ih'.1, List.append_assoc, List.cons_append, List.nil_append,
        List.singleton_append]
    · simp only [List.length_cons, ih'.2.1]
    · simp only [List.cons_append, runningTotals, ih'.2.2]

/-- C2: for every finite server script of decodable pages whose last page
has an absent cursor and whose earlier pages each carry a present one,
`User::saved` terminates with `Ok`, returning exactly those pages in fetch
order — the terminal page included — after exactly one request per page. -/
theorem saved_terminates_with_all_pages (u : User) (init : List UserSaved)
    (lastp : UserSaved) (h1 : ∀ p ∈ init, (p.data.after).isSome)
    (h2 : lastp.data.after = none) :
    (u.saved ((init ++ [lastp]).map pageOutcome)).result = .ok (init ++ [lastp])
    ∧ (u.saved ((init ++ [lastp]).map pageOutcome)).requests.length
        = init.length + 1 := by
  have h := savedLoop_all_pages u.name u.auth.access_token init lastp 0 none []
    h1 h2 (Or.inl rfl)
  exact ⟨by simpa using h.1, h.2.1⟩

/-- Witness for C2: a two-page script, a cursor-bearing page then a
terminal one, yields exactly those two pages and two requests. -/
theorem saved_terminates_with_all_pages_witness :
    ((User.mk ⟨"tok"⟩ "u").saved
        (([bigFirstPage] ++ [smallLastPage]).map pageOutcome)).result
      = .ok ([bigFirstPage] ++ [smallLastPage])
    ∧ ((User.mk ⟨"tok"⟩ "u").saved
        (([bigFirstPage] ++ [smallLastPage]).map pageOutcome)).requests.length
      = [bigFirstPage].length + 1 :=
  saved_terminates_with_all_pages (User.mk ⟨"tok"⟩ "u") [bigFirstPage]
    smallLastPage (by decide) rfl

theorem runningTotals_eq_sums (ps : List UserSaved) :
    ∀ processed : Nat,
      runningTotals processed ps
        = (List.range ps.length).map
            (fun n => processed + sumDist (ps.take (n + 1))) := by
  induction ps with
  | nil => intro processed; simp [runningTotals]
  | cons p rest ih =>
    intro processed
    simp only [runningTotals, ih (processed + p.data.dist), List.length_cons,
      List.range_succ_eq_map, List.map_cons, List.map_map]
    congr 1
    simp only [List.map_eq_map_iff]
    intro n hn
    simp only [Function.comp_apply, Nat.succ_eq_add_one, List.take_succ_cons,
      sumDist, List.map_cons, List.sum_cons]
    omega

/-- The second page of the spec's three-page scenario. -/
def midPage2 : UserSaved := ⟨⟨100, some "t2", []⟩⟩

/-- The terminal page of the spec's three-page scenario. -/
def lastPage37 : UserSaved := ⟨⟨37, none, []⟩⟩

/-- C5: the `processed` value logged after the N-th decoded page equals
the sum of `dist` over the first N pages (the logged sequence is exactly
the sequence of prefix sums), and on the spec's concrete scenario
`[{dist 100, after t1}, {dist 100, after t2}, {dist 37, after none}]` the
fetch issues 3 requests (cursor absent, then `t1`, then `t2`), logs
100, 200, 237, and returns the 3 pages. -/
theorem saved_count_accumulation :
    (∀ (u : User) (init : List UserSaved) (lastp : UserSaved),
        (∀ p ∈ init, (p.data.after).isSome) → lastp.data.after = none →
        (u.saved ((init ++ [lastp]).map pageOutcome)).counts
          = (List.range (init.length + 1)).map
              (fun n => sumDist ((init ++ [lastp]).take (n + 1))))
    ∧ (User.mk ⟨"tok"⟩ "u").saved
          ([bigFirstPage, midPage2, lastPage37].map pageOutcome)
        = { requests := [savedRequest "u" "tok" none,
              savedRequest "u" "tok" (some "t1"), savedRequest "u" "tok" (some "t2")]
            counts := [100, 200, 237]
            result := .ok [bigFirstPage, midPage2, lastPage37] } := by
  constructor
  · intro u init lastp h1 h2
    have h := savedLoop_all_pages u.name u.auth.access_token init lastp 0 none []
      h1 h2 (Or.inl rfl)
    unfold User.saved
    rw [h.2.2, runningTotals_eq_sums (init ++ [lastp]) 0]
    simp
  · rfl

/-- Witness for C5: the general statement applied to the scenario pages,
with the prefix sums evaluated to 100, 200, 237. -/
theorem saved_count_accumulation_witness :
    ((User.mk ⟨"tok"⟩ "u").saved
        (([bigFirstPage, midPage2] ++ [lastPage37]).map pageOutcome)).counts
      = [100, 200, 237] :=
  (saved_count_accumulation.1 (User.mk ⟨"tok"⟩ "u") [bigFirstPage, midPage2]
      lastPage37 (by decide) rfl).trans (by decide)

/-- The error propagated by the `?`s at `user.rs:70-73` for one scripted
outcome, when that outcome makes the request fail: a transport failure of
`send()` or a body `.json()` cannot decode. -/
def outcomeError : TransportOutcome → Option ReddSaverError
  | .fail => some .transportError
  | .response _ .undecodable => some .decodeError
  | .response _ (.page _) => none

theorem savedLoop_failfast (name token : String) (o : TransportOutcome)
    (e : ReddSaverError) (he : outcomeError o = some e)
    (rest : List TransportOutcome) :
    ∀ (ps : List UserSaved) (processed : Nat) (after : Option String)
      (acc : List UserSaved),
      (∀ p ∈ ps, (p.data.after).isSome) → (processed = 0 ∨ after.isSome) →
      (savedLoop name token processed after acc
          (ps.map pageOutcome ++ o :: rest)).result = .err e
      ∧ (savedLoop name token processed after acc
          (ps.map pageOutcome ++ o :: rest)).requests.length = ps.length + 1 := by
  intro ps
  induction ps with
  | nil =>
    intro processed after acc h1 hinv
    obtain ⟨cur, hcur⟩ := cursorParam_eq_some processed after hinv
    simp only [List.map_nil, List.nil_append]
    cases o with
    | fail =>
      simp only [outcomeError, Option.some.injEq] at he
      rw [savedLoop_fail _ _ _ _ _ _ _ hcur, ← he]
      exact ⟨rfl, rfl⟩
    | response s body =>
      cases body with
      | undecodable =>
        simp only [outcomeError, Option.some.injEq] at he
        rw [savedLoop_undecodable _ _ _ _ _ _ _ _ hcur, ← he]
        exact ⟨rfl, rfl⟩
      | page p => simp [outcomeError] at he
  | cons p ps ih =>
    intro processed after acc h1 hinv
    obtain ⟨cur, hcur⟩ := cursorParam_eq_some processed after hinv
    obtain ⟨a, ha⟩ := Option.isSome_iff_exists.mp (h1 p (List.mem_cons_self p ps))
    have ih' := ih (processed + p.data.dist) (some a) (acc ++ [p])
      (fun q hq => h1 q (List.mem_cons_of_mem p hq)) (Or.inr rfl)
    simp only [List.map_cons, List.cons_append, pageOutcome]
    rw [savedLoop_midPage _ _ _ _ _ _ _ _ _ _ hcur ha]
    exact ⟨ih'.1, by simp [ih'.2]⟩

/-- C3: if the i-th scripted outcome fails (a transport failure or an
undecodable body) after i-1 decodable pages that each carried a cursor,
the call returns that error — not any partial result — and exactly i
requests were issued: nothing of the remaining script is requested. -/
theorem saved_failfast (u : User) (ps : List UserSaved) (o : TransportOutcome)
    (e : ReddSaverError) (rest : List TransportOutcome)
    (h1 : ∀ p ∈ ps, (p.data.after).isSome) (he : outcomeError o = some e) :
    (u.saved (ps.map pageOutcome ++ o :: rest)).result = .err e
    ∧ (u.saved (ps.map pageOutcome ++ o :: rest)).requests.length
        = ps.length + 1 :=
  savedLoop_failfast u.name u.auth.access_token o e he rest ps 0 none [] h1
    (Or.inl rfl)

/-- Witness for C3: request 2 of a 3-outcome script fails at the transport
layer; the transport error is returned and only 2 requests were issued. -/
theorem saved_failfast_witness :
    ((User.mk ⟨"tok"⟩ "u").saved
        ([bigFirstPage].map pageOutcome
          ++ .fail :: [pageOutcome smallLastPage])).result
      = .err .transportError
    ∧ ((User.mk ⟨"tok"⟩ "u").saved
        ([bigFirstPage].map pageOutcome
          ++ .fail :: [pageOutcome smallLastPage])).requests.length
      = [bigFirstPage].length + 1 :=
  saved_failfast (User.mk ⟨"tok"⟩ "u") [bigFirstPage] .fail .transportError
    [pageOutcome smallLastPage] (by decide) rfl

/-- A concrete page with no items and no cursor. -/
def emptyPage : UserSaved := ⟨⟨0, none, []⟩⟩

/-- C6: a single scripted page with `dist = 0` and an absent cursor yields
exactly one issued request, one logged count of `0`, and a successful
result holding exactly that one (empty) page — not an error. -/
theorem saved_empty_result (u : User) (p : UserSaved)
    (hd : p.data.dist = 0) (ha : p.data.after = none) :
    u.saved [pageOutcome p]
      = { requests := [savedRequest u.name u.auth.access_token none]
          counts := [0]
          result := .ok [p] } := by
  unfold User.saved
  simp only [pageOutcome]
  rw [savedLoop_lastPage u.name u.auth.access_token 0 none [] none 200 p [] rfl ha]
  simp [hd]

/-- Witness for C6: the empty-page run evaluated at a concrete user. -/
theorem saved_empty_result_witness :
    (User.mk ⟨"tok"⟩ "u").saved [pageOutcome emptyPage]
      = { requests := [savedRequest "u" "tok" none]
          counts := [0]
          result := .ok [emptyPage] } :=
  saved_empty_result (User.mk ⟨"tok"⟩ "u") emptyPage rfl rfl

theorem saved_after_split (a : String) :
    ("/saved?after=" : String) ++ a = "/saved" ++ ("?after=" ++ a) := by
  rw [← String.append_assoc,
    show ("/saved" : String) ++ "?after=" = "/saved?after=" from rfl]

theorem saved_url_shape (name : String) (cur : Option String) :
    ∃ tail, savedUrl name cur
      = "https://oauth.reddit.com/user/" ++ name ++ "/saved" ++ tail := by
  cases cur with
  | none => exact ⟨"", by rw [String.append_empty]; rfl⟩
  | some a =>
    refine ⟨"?after=" ++ a, ?_⟩
    show "https://oauth.reddit.com/user/" ++ name ++ "/saved?after=" ++ a = _
    rw [String.append_assoc ("https://oauth.reddit.com/user/" ++ name) "/saved?after=" a,
      saved_after_split, ← String.append_assoc]

theorem savedLoop_requests_shape (name token : String) :
    ∀ (script : List TransportOutcome) (processed : Nat) (after : Option String)
      (acc : List UserSaved) (req : Request),
      req ∈ (savedLoop name token processed after acc script).requests →
      ∃ cur, req = savedRequest name token cur := by
  intro script
  induction script with
  | nil =>
    intro processed after acc req hreq
    cases hcur : cursorParam processed after with
    | none =>
      rw [savedLoop_panic _ _ _ _ _ _ hcur] at hreq
      simp at hreq
    | some cur =>
      rw [savedLoop_nil _ _ _ _ _ _ hcur] at hreq
      simp at hreq
      exact ⟨cur, hreq⟩
  | cons o rest ih =>
    intro processed after acc req hreq
    cases hcur : cursorParam processed after with
    | none =>
      rw [savedLoop_panic _ _ _ _ _ _ hcur] at hreq
      simp at hreq
    | some cur =>
      cases o with
      | fail =>
        rw [savedLoop_fail _ _ _ _ _ _ _ hcur] at hreq
        simp at hreq
        exact ⟨cur, hreq⟩
      | response s body =>
        cases body with
        | undecodable =>
          rw [savedLoop_undecodable _ _ _ _ _ _ _ _ hcur] at hreq
          simp at hreq
          exact ⟨cur, hreq⟩
        | page p =>
          cases hp : p.data.after with
          | none =>
            rw [savedLoop_lastPage _ _ _ _ _ _ _ _ _ hcur hp] at hreq
            simp at hreq
            exact ⟨cur, hreq⟩
          | some a =>
            rw [savedLoop_midPage _ _ _ _ _ _ _ _ _ _ hcur hp] at hreq
            simp only [List.mem_cons] at hreq
            rcases hreq with hreq | hreq
            · exact ⟨cur, hreq⟩
            · exact ih _ _ _ req hreq

/-- C7: every request `User::saved` issues is a listing request for the
given account on the OAuth host — its URL is
`https://oauth.reddit.com/user/<name>/saved` possibly followed by the
cursor query — carrying `limit=100` on every iteration, the caller's
bearer token, and the User-Agent header; the profile and unsave endpoints
are likewise rooted at the OAuth host. -/
theorem saved_requests_wellformed (u : User) (script : List TransportOutcome) :
    (∀ req ∈ (u.saved script).requests,
        (∃ cur, req = savedRequest u.name u.auth.access_token cur)
        ∧ (∃ tail, req.url
            = "https://oauth.reddit.com/user/" ++ u.name ++ "/saved" ++ tail)
        ∧ req.query = [("limit", 100)]
        ∧ req.bearer = u.auth.access_token
        ∧ req.userAgent = get_user_agent_string)
    ∧ aboutUrl u.name = "https://oauth.reddit.com/" ++ ("user/" ++ u.name ++ "/about")
    ∧ unsaveUrl = "https://oauth.reddit.com/" ++ "api/unsave" := by
  refine ⟨?_, ?_, rfl⟩
  · intro req hreq
    obtain ⟨cur, hcur⟩ :=
      savedLoop_requests_shape u.name u.auth.access_token script 0 none [] req hreq
    subst hcur
    exact ⟨⟨cur, rfl⟩, saved_url_shape u.name cur, rfl, rfl, rfl⟩
  · show "https://oauth.reddit.com/user/" ++ u.name ++ "/about" = _
    rw [← String.append_assoc "https://oauth.reddit.com/" ("user/" ++ u.name) "/about",
      ← String.append_assoc "https://oauth.reddit.com/" "user/" u.name,
      show ("https://oauth.reddit.com/" : String) ++ "user/"
        = "https://oauth.reddit.com/user/" from rfl]

/-- Witness for C7: the single request of a one-page run, with its URL,
query, bearer and User-Agent facts instantiated. -/
theorem saved_requests_wellformed_witness :
    ((∃ cur, savedRequest "u" "tok" none = savedRequest "u" "tok" cur)
      ∧ (∃ tail, (savedRequest "u" "tok" none).url
          = "https://oauth.reddit.com/user/" ++ "u" ++ "/saved" ++ tail)
      ∧ (savedRequest "u" "tok" none).query = [("limit", 100)]
      ∧ (savedRequest "u" "tok" none).bearer = "tok"
      ∧ (savedRequest "u" "tok" none).userAgent = get_user_agent_string) :=
  (saved_requests_wellformed (User.mk ⟨"tok"⟩ "u") [pageOutcome emptyPage]).1
    (savedRequest "u" "tok" none) (by decide)

/-- A one-item page that always points at the cursor `t`. -/
def chainPage : UserSaved := ⟨⟨1, some "t", []⟩⟩

theorem savedLoop_replicate (name token : String) :
    ∀ (k : Nat) (processed : Nat) (after : Option String) (acc : List UserSaved),
      (processed = 0 ∨ after.isSome) →
      (savedLoop name token processed after acc
          (List.replicate k (pageOutcome chainPage))).requests.length = k + 1 := by
  intro k
  induction k with
  | zero =>
    intro processed after acc hinv
    obtain ⟨cur, hcur⟩ := cursorParam_eq_some processed after hinv
    rw [List.replicate_zero, savedLoop_nil _ _ _ _ _ _ hcur]
    rfl
  | succ k ih =>
    intro processed after acc hinv
    obtain ⟨cur, hcur⟩ := cursorParam_eq_some processed after hinv
    have hstep :
        savedLoop name token processed after acc
            (List.replicate (k + 1) (pageOutcome chainPage))
          = savedLoop name token processed after acc
            (.response 200 (.page chainPage)
              :: List.replicate k (pageOutcome chainPage)) := by
      rw [List.replicate_succ]
      rfl
    rw [hstep, savedLoop_midPage _ _ _ _ _ _ _ _ _ _ hcur rfl]
    simp only [List.length_cons,
      ih (processed + chainPage.data.dist) (some "t") (acc ++ [chainPage]) (Or.inr rfl)]

theorem savedLoop_ok_last (name token : String) :
    ∀ (script : List TransportOutcome) (processed : Nat) (after : Option String)
      (acc : List UserSaved) (pages : List UserSaved),
      (savedLoop name token processed after acc script).result = .ok pages →
      ∃ p, pages.getLast? = some p ∧ p.data.after = none := by
  intro script
  induction script with
  | nil =>
    intro processed after acc pages h
    cases hcur : cursorParam processed after with
    | none => rw [savedLoop_panic _ _ _ _ _ _ hcur] at h; simp at h
    | some cur => rw [savedLoop_nil _ _ _ _ _ _ hcur] at h; simp at h
  | cons o rest ih =>
    intro processed after acc pages h
    cases hcur : cursorParam processed after with
    | none => rw [savedLoop_panic _ _ _ _ _ _ hcur] at h; simp at h
    | some cur =>
      cases o with
      | fail => rw [savedLoop_fail _ _ _ _ _ _ _ hcur] at h; simp at h
      | response s body =>
        cases body with
        | undecodable =>
          rw [savedLoop_undecodable _ _ _ _ _ _ _ _ hcur] at h
          simp at h
        | page p =>
          cases hp : p.data.after with
          | none =>
            rw [savedLoop_lastPage _ _ _ _ _ _ _ _ _ hcur hp] at h
            simp only [FetchResult.ok.injEq] at h
            subst h
            exact ⟨p, List.getLast?_concat acc, hp⟩
          | some a =>
            rw [savedLoop_midPage _ _ _ _ _ _ _ _ _ _ hcur hp] at h
            exact ih _ _ _ pages h

/-- C9: `User::saved` has no iteration cap: for every `n` there is a
server script, all of whose delivered pages carry a present cursor, under
which more than `n` requests are issued; and whenever a run does return
`Ok`, the last returned page is one whose cursor is absent — termination
comes only from the server eventually answering with an absent cursor. -/
theorem saved_no_iteration_bound (u : User) :
    (∀ n : Nat, ∃ script : List TransportOutcome,
        (∀ o ∈ script, ∃ p, o = pageOutcome p ∧ (p.data.after).isSome)
        ∧ n < ((u.saved script).requests).length)
    ∧ (∀ (script : List TransportOutcome) (pages : List UserSaved),
        (u.saved script).result = .ok pages →
        ∃ p, pages.getLast? = some p ∧ p.data.after = none) := by
  constructor
  · intro n
    refine ⟨List.replicate n (pageOutcome chainPage), ?_, ?_⟩
    · intro o ho
      rw [List.eq_of_mem_replicate ho]
      exact ⟨chainPage, rfl, rfl⟩
    · have h := savedLoop_replicate u.name u.auth.access_token n 0 none []
        (Or.inl rfl)
      unfold User.saved
      rw [h]
      omega
  · intro script pages h
    exact savedLoop_ok_last u.name u.auth.access_token script 0 none [] pages h

/-- Witness for C9: the Ok-implies-terminal-cursor half applied to a
concrete one-page script. -/
theorem saved_no_iteration_bound_witness :
    ∃ p, ([smallLastPage] : List UserSaved).getLast? = some p
      ∧ p.data.after = none :=
  (saved_no_iteration_bound (User.mk ⟨"tok"⟩ "u")).2 [pageOutcome smallLastPage]
    [smallLastPage] rfl

end ReddSaver
